import Mathlib

/-!
Verification of the orchestration core of `ai-orchestrator-human-in-loop`.

The definitions below are shallow embeddings of the TypeScript source:

* `packages/core/src/state-machine/job-states.ts` — job states, events,
  `VALID_TRANSITIONS`, `getNextState`, `isValidTransition`, and the
  `JobStateMachine.transition` engine (database modelled as a list of rows,
  exceptions as `Except`, the two awaited statements of `transition` split
  into an explicit read phase and write phase so that interleavings of
  concurrent calls can be analysed).
* `packages/core/src/db/tenant-aware-client.ts` — the tenant-aware client
  (`select` / `insert` / `update` / `delete` wrappers, the `where`-intercepting
  proxy, tenant-id injection on insert).
* `packages/core/src/context/tenant-context.ts` — the ambient tenant scope,
  modelled as an `Option TenantContext` value passed explicitly.
* `packages/core/src/jobs/producer.ts` (`createJob`) and the reviewing /
  coding workers' enqueue logic (`apps/backend/src/workers`).
-/

namespace AiCd

/-! ## State machine: `job-states.ts` -/

/-- `enum JobState` from `job-states.ts`. -/
inductive JobState where
  | QUEUED
  | PLANNING
  | CODING
  | REVIEWING
  | PR_OPEN
  | COMPLETED
  | FAILED
  | CANCELLED
deriving DecidableEq, Repr

/-- `enum JobEvent` from `job-states.ts`. -/
inductive JobEvent where
  | START_PLANNING
  | PLAN_SUCCEEDED
  | PLAN_FAILED
  | START_CODING
  | CODE_SUCCEEDED
  | CODE_FAILED
  | START_REVIEWING
  | REVIEW_APPROVED
  | REVIEW_REJECTED
  | REVIEW_FAILED
  | PR_OPENED
  | PR_FAILED
  | MARK_COMPLETED
  | CANCEL
  | FAIL
deriving DecidableEq, Repr

/-- The string value of each `JobState` enum member (used where the source
stores a status string, e.g. `failedAt: currentState`). -/
def stateName : JobState → String
  | .QUEUED => "QUEUED"
  | .PLANNING => "PLANNING"
  | .CODING => "CODING"
  | .REVIEWING => "REVIEWING"
  | .PR_OPEN => "PR_OPEN"
  | .COMPLETED => "COMPLETED"
  | .FAILED => "FAILED"
  | .CANCELLED => "CANCELLED"

/-- `VALID_TRANSITIONS` record from `job-states.ts`: map of current state to
allowed next states. -/
def VALID_TRANSITIONS : JobState → List JobState
  | .QUEUED => [.PLANNING, .CANCELLED, .FAILED]
  | .PLANNING => [.CODING, .FAILED, .CANCELLED]
  | .CODING => [.REVIEWING, .FAILED, .CANCELLED]
  | .REVIEWING => [.CODING, .PR_OPEN, .FAILED, .CANCELLED]
  | .PR_OPEN => [.COMPLETED, .FAILED]
  | .COMPLETED => []
  | .FAILED => []
  | .CANCELLED => []

/-- `isValidTransition(from, to)` from `job-states.ts`:
`VALID_TRANSITIONS[from].includes(to)`. -/
def isValidTransition (fromState toState : JobState) : Bool :=
  (VALID_TRANSITIONS fromState).contains toState

/-- `getNextState(currentState, event)` from `job-states.ts`: the nested
transition record, `null` (here `none`) when the event is absent for the
current state. -/
def getNextState : JobState → JobEvent → Option JobState
  | .QUEUED, .START_PLANNING => some .PLANNING
  | .QUEUED, .CANCEL => some .CANCELLED
  | .QUEUED, .FAIL => some .FAILED
  | .PLANNING, .PLAN_SUCCEEDED => some .CODING
  | .PLANNING, .PLAN_FAILED => some .FAILED
  | .PLANNING, .CANCEL => some .CANCELLED
  | .CODING, .CODE_SUCCEEDED => some .REVIEWING
  | .CODING, .CODE_FAILED => some .FAILED
  | .CODING, .CANCEL => some .CANCELLED
  | .REVIEWING, .REVIEW_APPROVED => some .PR_OPEN
  | .REVIEWING, .REVIEW_REJECTED => some .CODING
  | .REVIEWING, .REVIEW_FAILED => some .FAILED
  | .REVIEWING, .CANCEL => some .CANCELLED
  | .PR_OPEN, .PR_OPENED => some .COMPLETED
  | .PR_OPEN, .PR_FAILED => some .FAILED
  | _, _ => none

/-- The 15-row transition table of spec §4.1, transcribed from the spec's
words (for comparison with `getNextState`, which is transcribed from the
source). -/
def specTransitionTable : List (JobState × JobEvent × JobState) :=
  [ (.QUEUED, .START_PLANNING, .PLANNING)
  , (.QUEUED, .CANCEL, .CANCELLED)
  , (.QUEUED, .FAIL, .FAILED)
  , (.PLANNING, .PLAN_SUCCEEDED, .CODING)
  , (.PLANNING, .PLAN_FAILED, .FAILED)
  , (.PLANNING, .CANCEL, .CANCELLED)
  , (.CODING, .CODE_SUCCEEDED, .REVIEWING)
  , (.CODING, .CODE_FAILED, .FAILED)
  , (.CODING, .CANCEL, .CANCELLED)
  , (.REVIEWING, .REVIEW_APPROVED, .PR_OPEN)
  , (.REVIEWING, .REVIEW_REJECTED, .CODING)
  , (.REVIEWING, .REVIEW_FAILED, .FAILED)
  , (.REVIEWING, .CANCEL, .CANCELLED)
  , (.PR_OPEN, .PR_OPENED, .COMPLETED)
  , (.PR_OPEN, .PR_FAILED, .FAILED) ]

/-- Lookup in the spec's §4.1 table: the target of the unique row for
`(s, e)`, or `none` when no row matches. -/
def specNextState (s : JobState) (e : JobEvent) : Option JobState :=
  (specTransitionTable.find? (fun r => r.1 = s ∧ r.2.1 = e)).map (fun r => r.2.2)

/-! ## The transition engine: `JobStateMachine.transition` -/

/-- One row of the `jobs` table (columns used by the state machine:
`id`, `status`, `updated_at`, `metadata`).  `metadata` is modelled as an
association list in which later entries override earlier ones, matching the
JS object-spread merge in `transition`. -/
structure JobRow where
  id : String
  status : JobState
  updatedAt : Nat
  metadata : List (String × String)
deriving DecidableEq, Repr

/-- The `jobs` table contents. -/
abbrev Db := List JobRow

/-- The distinct `JobStateError` messages thrown by `JobStateMachine`,
one constructor per message template. -/
inductive JobStateError where
  | jobNotFound (jobId : String)
  | invalidEvent (event : JobEvent) (current : JobState)
  | invalidTransition (fromState toState : JobState)
  | updateFailed (jobId : String)
deriving DecidableEq, Repr

/-- The row predicate `eq(jobs.id, jobId)`. -/
def idMatches (jobId : String) (r : JobRow) : Bool :=
  r.id == jobId

/-- `db.select().from(jobs).where(eq(jobs.id, jobId))`. -/
def selectJob (db : Db) (jobId : String) : List JobRow :=
  db.filter (idMatches jobId)

/-- JS truthiness of the optional `errorDetails` string (the source guards the
metadata merge with `errorDetails && …`, so an empty string behaves like an
absent one). -/
def isTruthy : Option String → Bool
  | none => false
  | some e => e ≠ ""

/-- Read phase of `JobStateMachine.transition` (everything before the awaited
`db.update`): select the row, fail with `jobNotFound` when absent, compute
`getNextState`, fail with `invalidEvent` when it is `null`, fail with
`invalidTransition` when `isValidTransition` rejects the computed pair.
Returns the selected row and the computed next state. -/
def transitionRead (db : Db) (jobId : String) (event : JobEvent) :
    Except JobStateError (JobRow × JobState) :=
  match selectJob db jobId with
  | [] => .error (.jobNotFound jobId)
  | currentJob :: _ =>
    match getNextState currentJob.status event with
    | none => .error (.invalidEvent event currentJob.status)
    | some nextState =>
      if isValidTransition currentJob.status nextState then
        .ok (currentJob, nextState)
      else
        .error (.invalidTransition currentJob.status nextState)

/-- Write phase of `JobStateMachine.transition`: the awaited
`db.update(jobs).set({status, updatedAt, …metadata merge…}).where(eq(jobs.id, jobId)).returning()`.
The `where` clause matches on the job id only — there is no status guard,
row lock or transaction in the source.  When `errorDetails` is truthy the
`set` payload merges `errorDetails` and `failedAt: currentState` into the
metadata of the row selected by the read phase (`currentJob`).
`transitionSetRow` is the `set` payload applied to one matched row. -/
def transitionSetRow (currentJob : JobRow) (nextState : JobState)
    (errorDetails : Option String) (now : Nat) : JobRow → JobRow :=
  fun r =>
    { r with
      status := nextState
      updatedAt := now
      metadata :=
        if isTruthy errorDetails then
          currentJob.metadata ++
            [("errorDetails", errorDetails.getD ""),
             ("failedAt", stateName currentJob.status)]
        else r.metadata }

/-- The awaited UPDATE of the write phase: apply the `set` payload to every
row whose id matches, and model `.returning()` as the list of matched rows
after the update (`updatedJobs` in the source; its emptiness triggers the
`Failed to update job` error). -/
def transitionWrite (db : Db) (jobId : String) (currentJob : JobRow)
    (nextState : JobState) (errorDetails : Option String) (now : Nat) :
    Except JobStateError JobState × Db :=
  (match (db.filter (idMatches jobId)).map
      (transitionSetRow currentJob nextState errorDetails now) with
   | [] => .error (.updateFailed jobId)
   | _ :: _ => .ok nextState,
   db.map (fun r =>
     if idMatches jobId r then
       transitionSetRow currentJob nextState errorDetails now r
     else r))

/-- `JobStateMachine.transition(jobId, event, errorDetails?)`: the read phase
followed by the write phase.  A thrown error is modelled as an `Except.error`
result paired with the unchanged database (the throw happens before the
update statement). -/
def transition (db : Db) (jobId : String) (event : JobEvent)
    (errorDetails : Option String) (now : Nat) :
    Except JobStateError JobState × Db :=
  match transitionRead db jobId event with
  | .error e => (.error e, db)
  | .ok (currentJob, nextState) =>
      transitionWrite db jobId currentJob nextState errorDetails now

/-! ## Tenant scope: `tenant-context.ts`

The `AsyncLocalStorage` store is modelled as an explicit
`Option TenantContext` value: `none` outside any `runWithTenantContext`
scope, `some ctx` inside one. -/

/-- `interface TenantContext` from `tenant-context.ts`. -/
structure TenantContext where
  tenantId : String
  organizationId : Option String := none
deriving DecidableEq, Repr

/-- `hasTenantContext()`: `tenantContextStore.getStore() !== undefined`. -/
def hasTenantContext (store : Option TenantContext) : Bool :=
  store.isSome

/-! ## Tenant-aware client: `tenant-aware-client.ts` -/

/-- A table as seen by the tenant-aware client: its name (used in error
messages in place of the interpolated table object) and whether it declares a
`tenantId` column (`hasTenantIdColumn`). -/
structure Table where
  name : String
  hasTenantIdColumn : Bool
deriving DecidableEq, Repr

/-- A row of a table handled by the tenant-aware client.  `tenantId` is
`none` when the table has no `tenant_id` column (or the column was never
set); the remaining columns are specialised to the `repositories` shape used
by the spec's scenarios (`id`, `enabled`). -/
structure Row where
  id : String
  tenantId : Option String
  enabled : Bool
deriving DecidableEq, Repr

/-- The two error classes of `tenant-aware-client.ts`:
`TenantScopeError(message)` and `TenantAccessDeniedError(tenantId, resourceType)`. -/
inductive TenantClientError where
  | tenantScope (message : String)
  | tenantAccessDenied (tenantId resourceType : String)
deriving DecidableEq, Repr

/-- `getTenantFilterCondition(table)` specialised to the current tenant `c`:
the predicate `eq(tenantIdColumn, currentTenantId)`. -/
def tenantFilterCondition (c : TenantContext) : Row → Bool :=
  fun r => r.tenantId == some c.tenantId

/-- The `where` interception of `createTenantFilterProxy`: the caller's
condition (possibly `undefined`, i.e. `none`) is replaced by
`and(tenantFilter, condition)`, or by the tenant filter alone when the
caller passed no condition. -/
def proxiedWhere (c : TenantContext) (condition : Option (Row → Bool)) :
    Row → Bool :=
  match condition with
  | some cond => fun r => tenantFilterCondition c r && cond r
  | none => tenantFilterCondition c

/-- Executing `update(table).set(f).where(cond)` against table contents
`db`: returns the new contents and the affected (`returning()`) rows.  A
missing `where` clause (`none`) matches every row. -/
def runUpdate (db : List Row) (setFn : Row → Row)
    (whereClause : Option (Row → Bool)) : List Row × List Row :=
  let pred := whereClause.getD (fun _ => true)
  (db.map (fun r => if pred r then setFn r else r),
   (db.filter pred).map setFn)

/-- Executing `delete(table).where(cond)` against table contents `db`:
returns the new contents and the deleted (`returning()`) rows. -/
def runDelete (db : List Row) (whereClause : Option (Row → Bool)) :
    List Row × List Row :=
  let pred := whereClause.getD (fun _ => true)
  (db.filter (fun r => !(pred r)), db.filter pred)

/-- `createTenantAwareClient(db).select(table)` followed by execution:
`withImmediateTenantFilter(db.select().from(table), table)`.  A
non-multi-tenant table passes through unfiltered; a multi-tenant table
outside any scope throws `TenantScopeError` before the query runs; otherwise
`where(eq(tenantIdColumn, currentTenantId))` is applied immediately. -/
def tenantSelect (store : Option TenantContext) (tbl : Table)
    (db : List Row) : Except TenantClientError (List Row) :=
  if !tbl.hasTenantIdColumn then
    .ok db
  else if h : store.isSome then
    let c := store.get h
    .ok (db.filter (tenantFilterCondition c))
  else
    .error (.tenantScope
      ("Attempted to query multi-tenant table " ++ tbl.name ++
       " without tenant context"))

/-- `createTenantAwareClient(db).insert(table).values(values)`: the rows that
reach the INSERT statement.  The source wraps `values()` to inject
`tenantId: getCurrentTenantId()` into every row **only when** the table is
multi-tenant **and** a tenant context is active
(`hasTenantIdColumn(table) && hasTenantContext()`); on every other path —
including a multi-tenant table with no active scope — the caller's rows are
sent unchanged and no error is thrown. -/
def tenantInsertValues (store : Option TenantContext) (tbl : Table)
    (values : List Row) : Except TenantClientError (List Row) :=
  if h : tbl.hasTenantIdColumn && store.isSome then
    let c := store.get (by simpa using (Bool.and_elim_right h))
    .ok (values.map (fun v => { v with tenantId := some c.tenantId }))
  else
    .ok values

/-- `createTenantAwareClient(db).update(table).set(setFn).where(cond)`
followed by execution.  Non-multi-tenant tables pass through.  Multi-tenant
tables outside any scope throw `TenantScopeError` at the `update(table)`
call, before any SQL.  Otherwise `createUpdateProxy` intercepts the `where`
call after `set` and replaces the condition with
`and(tenantFilter, condition)` (the tenant filter alone for an `undefined`
condition). -/
def tenantUpdateRun (store : Option TenantContext) (tbl : Table)
    (db : List Row) (setFn : Row → Row) (condition : Option (Row → Bool)) :
    Except TenantClientError (List Row × List Row) :=
  if !tbl.hasTenantIdColumn then
    .ok (runUpdate db setFn condition)
  else if h : store.isSome then
    let c := store.get h
    .ok (runUpdate db setFn (some (proxiedWhere c condition)))
  else
    .error (.tenantScope
      ("Attempted to update multi-tenant table " ++ tbl.name ++
       " without tenant context"))

/-- `createTenantAwareClient(db).delete(table).where(cond)` followed by
execution, with the same guard and `where` interception as `update`. -/
def tenantDeleteRun (store : Option TenantContext) (tbl : Table)
    (db : List Row) (condition : Option (Row → Bool)) :
    Except TenantClientError (List Row × List Row) :=
  if !tbl.hasTenantIdColumn then
    .ok (runDelete db condition)
  else if h : store.isSome then
    let c := store.get h
    .ok (runDelete db (some (proxiedWhere c condition)))
  else
    .error (.tenantScope
      ("Attempted to delete from multi-tenant table " ++ tbl.name ++
       " without tenant context"))

/-- The `repositories` table: declares a `tenant_id` column
(`repositories-schema`: `tenantId: uuid('tenant_id').notNull()`). -/
def repositoriesTable : Table :=
  { name := "repositories", hasTenantIdColumn := true }

/-! ## Job producer: `createJob` (jobs/producer.ts) -/

/-- `interface CreateJobOptions` from `jobs/producer.ts`. -/
structure CreateJobOptions where
  tenantId : String
  repositoryId : String
  issueNumber : Nat
  issueTitle : String
  issueBody : String
  issueUrl : String
deriving DecidableEq, Repr

/-- `interface QueuedPayload` (`type: 'queued'` is implicit in the
structure). -/
structure QueuedPayload where
  issueTitle : String
  issueBody : String
  issueUrl : String
deriving DecidableEq, Repr

/-- The `metadata` object of an `AicdJob`. -/
structure AicdJobMetadata where
  createdAt : Nat
  updatedAt : Nat
deriving DecidableEq, Repr

/-- `interface AicdJob` from `jobs/types.ts`, with the payload fixed to the
queued shape produced by `createJob`. -/
structure AicdJob where
  jobId : String
  tenantId : String
  repositoryId : String
  issueNumber : Nat
  currentState : JobState
  payload : QueuedPayload
  metadata : AicdJobMetadata
deriving DecidableEq, Repr

/-- A BullMQ `queue.add(name, data, {jobId})` call recorded by the model:
the queue it targets, the message name, the job object, and the explicit
message id. -/
structure QueueAdd where
  queue : String
  name : String
  data : AicdJob
  messageId : String
deriving DecidableEq, Repr

/-- The observable effects of one `createJob` call: rows inserted into the
`jobs` table, queue `add` calls issued, and the returned id. -/
structure CreateJobResult where
  dbInserts : List JobRow
  enqueued : List QueueAdd
  returnedId : String
deriving DecidableEq, Repr

/-- `createJob(options)` from `jobs/producer.ts`, with the
`crypto.randomUUID()` result and the clock passed explicitly.  Its body
builds the queued payload and the `AicdJob` object and performs exactly one
effect: `getPlanningQueue().add('job-' ++ jobId, job, { jobId })`.  No
statement in the function touches the `jobs` table, so `dbInserts` is
empty. -/
def createJob (freshId : String) (now : Nat) (options : CreateJobOptions) :
    CreateJobResult :=
  let payload : QueuedPayload :=
    { issueTitle := options.issueTitle
    , issueBody := options.issueBody
    , issueUrl := options.issueUrl }
  let job : AicdJob :=
    { jobId := freshId
    , tenantId := options.tenantId
    , repositoryId := options.repositoryId
    , issueNumber := options.issueNumber
    , currentState := .QUEUED
    , payload := payload
    , metadata := { createdAt := now, updatedAt := now } }
  { dbInserts := []
  , enqueued := [{ queue := "planning"
                 , name := "job-" ++ freshId
                 , data := job
                 , messageId := freshId }]
  , returnedId := freshId }

/-! ## Worker payload flow: coding worker and reviewing worker

Only the fields the attempts counter flows through are modelled; the plan
and code payloads are carried opaquely. -/

/-- `PlanResult` as carried through worker payloads. -/
structure PlanResult where
  summary : String
  steps : List String
deriving DecidableEq, Repr

/-- `CodeResult` as carried through worker payloads.  The TS `CodeResult`
interface declares no `attempts` field; the reviewing worker nevertheless
reads `(payload.code as any).attempts`, so the dynamic property is modelled
as an `Option Nat` that is `none` on every `CodeResult` an agent constructs
(`MockAgent.code` returns `{changes, commitMessage, branch, metadata}`). -/
structure CodeResult where
  commitMessage : String
  branch : String
  attempts : Option Nat
deriving DecidableEq, Repr

/-- `interface CodingPayload` (`type: 'coding'`): the plan plus the
`attempts?: number` retry counter. -/
structure CodingPayload where
  plan : PlanResult
  attempts : Option Nat
deriving DecidableEq, Repr

/-- `interface ReviewingPayload` (`type: 'reviewing'`): the plan and the
code result.  Note there is no `attempts` field. -/
structure ReviewingPayload where
  plan : PlanResult
  code : CodeResult
deriving DecidableEq, Repr

/-- The reviewing payload the coding worker enqueues
(`coding-worker.ts`): `{type: 'reviewing', plan: payload.plan, code: codeResult}`.
The coding payload's `attempts` value is not forwarded. -/
def codingEnqueueReviewing (payload : CodingPayload)
    (codeResult : CodeResult) : ReviewingPayload :=
  { plan := payload.plan, code := codeResult }

/-- The attempts value the reviewing worker computes on rejection
(`reviewing-worker`):
`(payload.code as any).attempts ? (payload.code as any).attempts + 1 : 1`.
JS truthiness: an absent property or a `0` both take the `: 1` branch. -/
def rejectionNewAttempts (code : CodeResult) : Nat :=
  match code.attempts with
  | some n => if n ≠ 0 then n + 1 else 1
  | none => 1

/-- The coding payload the reviewing worker re-enqueues on rejection:
`{type: 'coding', plan: payload.plan, attempts: …}`. -/
def reviewingEnqueueCodingOnReject (payload : ReviewingPayload) :
    CodingPayload :=
  { plan := payload.plan, attempts := some (rejectionNewAttempts payload.code) }

/-- One full rejection round starting from a coding payload: the coding
worker runs the agent and enqueues the reviewing payload; the reviewing
worker rejects and re-enqueues a coding payload. -/
def rejectionRound (payload : CodingPayload) (codeResult : CodeResult) :
    CodingPayload :=
  reviewingEnqueueCodingOnReject (codingEnqueueReviewing payload codeResult)

/-! ## Interleavings of two `transition` calls

In the source, `transition` awaits its SELECT and then awaits its UPDATE;
each `await` is a suspension point at which another asynchronous
`transition` call on the same job may run.  `interleavedTransitions` is the
schedule in which both calls perform their read phase against the same
database state before either write phase runs — a schedule the source
permits because nothing (transaction, row lock, status-conditional WHERE)
serializes the two statements. -/

/-- Run two `transition` calls on the same job id under the schedule
read₁, read₂, write₁, write₂.  Returns both calls' results and the final
database. -/
def interleavedTransitions (db : Db) (jobId : String) (e1 e2 : JobEvent)
    (ed1 ed2 : Option String) (n1 n2 : Nat) :
    Except JobStateError JobState × Except JobStateError JobState × Db :=
  match transitionRead db jobId e1, transitionRead db jobId e2 with
  | .error er1, .error er2 => (.error er1, .error er2, db)
  | .error er1, .ok (cj2, nxt2) =>
      let w2 := transitionWrite db jobId cj2 nxt2 ed2 n2
      (.error er1, w2.1, w2.2)
  | .ok (cj1, nxt1), .error er2 =>
      let w1 := transitionWrite db jobId cj1 nxt1 ed1 n1
      (w1.1, .error er2, w1.2)
  | .ok (cj1, nxt1), .ok (cj2, nxt2) =>
      let w1 := transitionWrite db jobId cj1 nxt1 ed1 n1
      let w2 := transitionWrite w1.2 jobId cj2 nxt2 ed2 n2
      (w1.1, w2.1, w2.2)

/-! ## Concrete data for witnesses and counterexamples -/

/-- A job row in the terminal `CANCELLED` state. -/
def jobCancelledRow : JobRow :=
  { id := "job-1", status := .CANCELLED, updatedAt := 0, metadata := [] }

/-- A `jobs` table holding only the cancelled job. -/
def dbCancelled : Db := [jobCancelledRow]

/-- A job row in the initial `QUEUED` state. -/
def jobQueuedRow : JobRow :=
  { id := "job-1", status := .QUEUED, updatedAt := 0, metadata := [] }

/-- A `jobs` table holding only the queued job. -/
def dbQueued : Db := [jobQueuedRow]

/-- Repository of tenant A (spec §8 scenario 2). -/
def repoA : Row := { id := "repo-a", tenantId := some "tenant-a", enabled := true }

/-- Repository of tenant B (spec §8 scenario 2). -/
def repoB : Row := { id := "repo-b", tenantId := some "tenant-b", enabled := true }

/-- `repositories` contents with one row per tenant. -/
def reposDb : List Row := [repoA, repoB]

/-- The active scope of tenant A. -/
def ctxA : TenantContext := { tenantId := "tenant-a" }

/-- A row a caller tries to insert carrying another tenant's id. -/
def attackerRow : Row :=
  { id := "repo-x", tenantId := some "tenant-b", enabled := true }

/-- Caller predicate selecting tenant B's repository by id. -/
def selectRepoB : Option (Row → Bool) := some (fun r => r.id == "repo-b")

/-- Caller `set` payload: `set enabled = false`. -/
def disableRepo : Row → Row := fun r => { r with enabled := false }

/-- `createJob` options of spec §8 scenario 3. -/
def exampleOptions : CreateJobOptions :=
  { tenantId := "tenant-a"
  , repositoryId := "repo-a"
  , issueNumber := 123
  , issueTitle := "Test Issue"
  , issueBody := "This is a test issue"
  , issueUrl := "https://github.com/test/repo/issues/123" }

/-- A `CodeResult` as `MockAgent.code` produces it: no `attempts`
property. -/
def mockCodeResult : CodeResult :=
  { commitMessage := "fix: Test Issue", branch := "fix/issue-123", attempts := none }

/-- The coding payload the planning worker enqueues: plan only, no
`attempts`. -/
def initialCodingPayload : CodingPayload :=
  { plan := { summary := "mock plan", steps := [] }, attempts := none }

/-! ## Helper lemmas -/

theorem getNextState_isValid_aux (s : JobState) (e : JobEvent) :
    (match getNextState s e with
     | some t => isValidTransition s t
     | none => true) = true := by
  cases s <;> cases e <;> rfl

theorem getNextState_isValid {s : JobState} {e : JobEvent} {t : JobState}
    (h : getNextState s e = some t) : isValidTransition s t = true := by
  have aux := getNextState_isValid_aux s e
  rw [h] at aux
  exact aux

theorem getNextState_terminal {s : JobState}
    (hs : s = .COMPLETED ∨ s = .FAILED ∨ s = .CANCELLED) (e : JobEvent) :
    getNextState s e = none := by
  rcases hs with h | h | h <;> subst h <;> cases e <;> rfl

theorem idMatches_of_preserves (jobId : String) (g : JobRow → JobRow)
    (hg : ∀ r, (g r).id = r.id) (r : JobRow) :
    idMatches jobId (g r) = idMatches jobId r := by
  unfold idMatches
  rw [hg r]

theorem selectJob_map_update (db : Db) (jobId : String) (g : JobRow → JobRow)
    (hg : ∀ r, (g r).id = r.id) :
    selectJob (db.map (fun r => if idMatches jobId r then g r else r)) jobId
      = (selectJob db jobId).map g := by
  unfold selectJob
  induction db with
  | nil => rfl
  | cons r rest ih =>
    simp only [List.map_cons, List.filter_cons]
    cases h : idMatches jobId r with
    | true =>
      have hgr : idMatches jobId (g r) = true := by
        rw [idMatches_of_preserves jobId g hg r]; exact h
      simp [h, hgr, ih]
    | false =>
      simp [h, ih]

theorem transitionRead_ok {db : Db} {jobId : String} {event : JobEvent}
    {row : JobRow} {rest : List JobRow} {nxt : JobState}
    (hsel : selectJob db jobId = row :: rest)
    (hnext : getNextState row.status event = some nxt) :
    transitionRead db jobId event = .ok (row, nxt) := by
  unfold transitionRead
  simp [hsel, hnext, getNextState_isValid hnext]

theorem transitionWrite_ok {db : Db} {jobId : String} {row : JobRow}
    {rest : List JobRow} (currentJob : JobRow) (nxt : JobState)
    (ed : Option String) (now : Nat)
    (hsel : selectJob db jobId = row :: rest) :
    transitionWrite db jobId currentJob nxt ed now
      = (.ok nxt,
         db.map (fun r => if idMatches jobId r then
           transitionSetRow currentJob nxt ed now r else r)) := by
  unfold transitionWrite
  unfold selectJob at hsel
  rw [hsel]
  rfl

theorem map_ite_no_match (setFn : Row → Row) (p : Row → Bool) :
    ∀ db : List Row, (∀ r ∈ db, p r = false) →
    db.map (fun r => if p r then setFn r else r) = db := by
  intro db
  induction db with
  | nil => intro _; rfl
  | cons r rest ih =>
    intro hp
    have hr := hp r (List.mem_cons_self r rest)
    have htl := ih (fun x hx => hp x (List.mem_cons_of_mem r hx))
    simp [hr, htl]

theorem runUpdate_no_match (db : List Row) (setFn : Row → Row)
    (p : Row → Bool) (hp : ∀ r ∈ db, p r = false) :
    runUpdate db setFn (some p) = (db, []) := by
  unfold runUpdate
  have hfil : db.filter p = [] := by
    rw [List.filter_eq_nil_iff]
    intro a ha
    simp [hp a ha]
  have hmap := map_ite_no_match setFn p db hp
  simp [hfil, hmap]

theorem runDelete_no_match (db : List Row) (p : Row → Bool)
    (hp : ∀ r ∈ db, p r = false) :
    runDelete db (some p) = (db, []) := by
  unfold runDelete
  have hfil : db.filter p = [] := by
    rw [List.filter_eq_nil_iff]
    intro a ha
    simp [hp a ha]
  have hkeep : db.filter (fun r => !(p r)) = db := by
    rw [List.filter_eq_self]
    intro a ha
    simp [hp a ha]
  simp [hfil, hkeep]

/-! ## Claims -/

/-- C5: the pure transition function agrees with the spec's §4.1 table —
`getNextState (s, e)` equals the table's target when `(s, e)` is one of its
15 rows and is `none` for every other pair; the permitted-successor sets of
the three terminal states are empty, so terminal states have no outgoing
transitions for any event. -/
theorem c5_nextState_matches_spec_table :
    (∀ s e, getNextState s e = specNextState s e)
    ∧ VALID_TRANSITIONS .COMPLETED = []
    ∧ VALID_TRANSITIONS .FAILED = []
    ∧ VALID_TRANSITIONS .CANCELLED = []
    ∧ (∀ e, getNextState .COMPLETED e = none
        ∧ getNextState .FAILED e = none
        ∧ getNextState .CANCELLED e = none) := by
  refine ⟨?_, rfl, rfl, rfl, ?_⟩
  · intro s e
    cases s <;> cases e <;> rfl
  · intro e
    exact ⟨by cases e <;> rfl, by cases e <;> rfl, by cases e <;> rfl⟩

/-- `transitionRead` never produces the `Invalid transition from … to …`
error: its guard is implied by a successful `getNextState` lookup. -/
theorem transitionRead_ne_invalidTransition (db : Db) (jobId : String)
    (event : JobEvent) (a b : JobState) :
    transitionRead db jobId event ≠ .error (.invalidTransition a b) := by
  unfold transitionRead
  cases hsel : selectJob db jobId with
  | nil => simp
  | cons cj rest =>
    cases hnext : getNextState cj.status event with
    | none => simp [hnext]
    | some nxt => simp [hnext, getNextState_isValid hnext]

/-- `transitionWrite` only ever returns `ok` or the `updateFailed` error. -/
theorem transitionWrite_ne_invalidTransition (db : Db) (jobId : String)
    (cj : JobRow) (nxt : JobState) (ed : Option String) (now : Nat)
    (a b : JobState) :
    (transitionWrite db jobId cj nxt ed now).1
      ≠ .error (.invalidTransition a b) := by
  unfold transitionWrite
  cases (db.filter (idMatches jobId)).map
      (transitionSetRow cj nxt ed now) <;> simp

/-- C10: whenever `getNextState (s, e)` returns a state `t`,
`isValidTransition s t` holds; consequently the second error branch of
`JobStateMachine.transition` — the `Invalid transition from … to …` failure
raised after a successful event lookup — is unreachable: no call to
`transition` ever produces that error. -/
theorem c10_invalidTransition_branch_unreachable :
    (∀ s e t, getNextState s e = some t → isValidTransition s t = true)
    ∧ (∀ (db : Db) (jobId : String) (event : JobEvent) (ed : Option String)
        (now : Nat) (a b : JobState),
        (transition db jobId event ed now).1
          ≠ .error (.invalidTransition a b)) := by
  constructor
  · intro s e t h
    exact getNextState_isValid h
  · intro db jobId event ed now a b
    unfold transition
    cases hr : transitionRead db jobId event with
    | error er =>
      have hne := transitionRead_ne_invalidTransition db jobId event a b
      rw [hr] at hne
      simpa using hne
    | ok res =>
      exact transitionWrite_ne_invalidTransition db jobId res.1 res.2 ed now a b

/-- Witness for C10 at concrete inputs: `QUEUED --START_PLANNING--> PLANNING`
is in the permitted set, and a concrete `transition` call does not produce
the invalid-transition error. -/
theorem c10_witness :
    isValidTransition .QUEUED .PLANNING = true
    ∧ (transition dbQueued "job-1" .CANCEL none 1).1
        ≠ .error (.invalidTransition .QUEUED .CANCELLED) :=
  ⟨c10_invalidTransition_branch_unreachable.1 .QUEUED .START_PLANNING .PLANNING rfl,
   c10_invalidTransition_branch_unreachable.2 dbQueued "job-1" .CANCEL none 1
     .QUEUED .CANCELLED⟩

/-- C6: `transition(jobId, event)` fails with the job-not-found error when no
row with that id exists; otherwise, with `from` the stored status of the
selected row, either `getNextState (from, event)` is `none` and the call
fails with the state machine's invalid-event error leaving the database
unchanged, or every row with that id has its status set to
`getNextState (from, event)` and that state is returned. -/
theorem c6_transition_contract (db : Db) (jobId : String) (event : JobEvent)
    (ed : Option String) (now : Nat) :
    (selectJob db jobId = [] →
      transition db jobId event ed now = (.error (.jobNotFound jobId), db))
    ∧ (∀ row rest, selectJob db jobId = row :: rest →
        (getNextState row.status event = none →
          transition db jobId event ed now
            = (.error (.invalidEvent event row.status), db))
        ∧ (∀ nxt, getNextState row.status event = some nxt →
            (transition db jobId event ed now).1 = .ok nxt
            ∧ ∀ r ∈ (transition db jobId event ed now).2,
                r.id = jobId → r.status = nxt)) := by
  constructor
  · intro hsel
    unfold transition transitionRead
    simp [hsel]
  · intro row rest hsel
    constructor
    · intro hnone
      unfold transition transitionRead
      simp [hsel, hnone]
    · intro nxt hnext
      have hread := transitionRead_ok hsel hnext
      have hwrite := transitionWrite_ok row nxt ed now hsel
      have htr : transition db jobId event ed now
          = transitionWrite db jobId row nxt ed now := by
        unfold transition
        rw [hread]
      constructor
      · rw [htr, hwrite]
      · intro r hr hid
        rw [htr, hwrite] at hr
        simp only at hr
        obtain ⟨x, _, hx⟩ := List.mem_map.mp hr
        cases hmx : idMatches jobId x with
        | true =>
          rw [hmx, if_pos rfl] at hx
          rw [← hx]
          rfl
        | false =>
          rw [hmx] at hx
          simp at hx
          rw [← hx] at hid
          unfold idMatches at hmx
          simp [hid] at hmx

/-- Witness for C6: in a database holding only the queued job `job-1`,
`transition("job-1", START_PLANNING)` returns `PLANNING`. -/
theorem c6_witness :
    (transition dbQueued "job-1" .START_PLANNING none 5).1
      = .ok JobState.PLANNING :=
  (((c6_transition_contract dbQueued "job-1" .START_PLANNING none 5).2
      jobQueuedRow [] rfl).2 .PLANNING rfl).1

/-- C8 counterexample: with `job-1` already `CANCELLED`, the reviewing
worker's terminal transition attempt `transition("job-1", REVIEW_REJECTED)`
is **not** a non-failing no-op: it fails with the invalid-event
`JobStateError` (which the worker's catch block rethrows after its
`REVIEW_FAILED` transition fails the same way).  The database is left
unchanged, but the call fails, contrary to the claim. -/
theorem c8_counterexample :
    transition dbCancelled "job-1" .REVIEW_REJECTED none 1
      = (.error (.invalidEvent .REVIEW_REJECTED .CANCELLED), dbCancelled) :=
  rfl

/-- C8 amended: a transition attempt on a job already in a terminal state
performs no write — the database, hence the row's status and metadata, is
unchanged — but the call is not a silent no-op: it fails with the
invalid-event `JobStateError` for every event. -/
theorem c8_terminal_transition_fails_without_writing (db : Db)
    (jobId : String) (event : JobEvent) (ed : Option String) (now : Nat)
    (row : JobRow) (rest : List JobRow)
    (hsel : selectJob db jobId = row :: rest)
    (hterm : row.status = .COMPLETED ∨ row.status = .FAILED
      ∨ row.status = .CANCELLED) :
    transition db jobId event ed now
      = (.error (.invalidEvent event row.status), db) := by
  have hnone := getNextState_terminal hterm event
  unfold transition transitionRead
  simp [hsel, hnone]

/-- Witness for C8 (amended) at a concrete input: `CANCEL` on the already
cancelled `job-1` fails with the invalid-event error and leaves the
database unchanged. -/
theorem c8_witness :
    transition dbCancelled "job-1" .CANCEL none 2
      = (.error (.invalidEvent .CANCEL .CANCELLED), dbCancelled) :=
  c8_terminal_transition_fails_without_writing dbCancelled "job-1" .CANCEL
    none 2 jobCancelledRow [] rfl (Or.inr (Or.inr rfl))

/-- C9 counterexample: `transition` is not serialized per job.  Starting
from `job-1` in `QUEUED`, interleave `transition(job-1, CANCEL)` and
`transition(job-1, FAIL)` so that both SELECTs run before either UPDATE —
a schedule the source permits, since the two statements are separate awaits
with no transaction, row lock, or status-conditional WHERE.  Both calls
succeed (both "win", contradicting "only one wins"), and the final stored
status is `FAILED` even though the store passed through the terminal state
`CANCELLED`. -/
theorem c9_counterexample :
    interleavedTransitions dbQueued "job-1" .CANCEL .FAIL none none 1 2
      = (.ok .CANCELLED, .ok .FAILED,
         [{ id := "job-1", status := .FAILED, updatedAt := 2, metadata := [] }]) :=
  rfl

/-- C9 amended: the read and write of `transition` are separate steps and
the UPDATE is guarded only by the job id, so two transition calls on the
same job whose reads both precede the writes both succeed — each returns
`ok` with its own computed next state, neither observing the other. -/
theorem c9_concurrent_transitions_both_win (db : Db) (jobId : String)
    (row : JobRow) (rest : List JobRow) (e1 e2 : JobEvent)
    (s1 s2 : JobState) (n1 n2 : Nat)
    (hsel : selectJob db jobId = row :: rest)
    (h1 : getNextState row.status e1 = some s1)
    (h2 : getNextState row.status e2 = some s2) :
    (interleavedTransitions db jobId e1 e2 none none n1 n2).1 = .ok s1
    ∧ (interleavedTransitions db jobId e1 e2 none none n1 n2).2.1 = .ok s2 := by
  have hr1 := transitionRead_ok hsel h1
  have hr2 := transitionRead_ok hsel h2
  have hw1 := transitionWrite_ok row s1 none n1 hsel
  have hsel1 : selectJob (db.map (fun r => if idMatches jobId r then
      transitionSetRow row s1 none n1 r else r)) jobId
      = (selectJob db jobId).map (transitionSetRow row s1 none n1) :=
    selectJob_map_update db jobId (transitionSetRow row s1 none n1)
      (fun _ => rfl)
  have hsel1' : selectJob (db.map (fun r => if idMatches jobId r then
      transitionSetRow row s1 none n1 r else r)) jobId
      = transitionSetRow row s1 none n1 row
          :: rest.map (transitionSetRow row s1 none n1) := by
    rw [hsel1, hsel]
    rfl
  have hw2 := transitionWrite_ok row s2 none n2 hsel1'
  unfold interleavedTransitions
  rw [hr1, hr2]
  simp only []
  rw [hw1]
  simp only []
  rw [hw2]
  exact ⟨trivial, rfl⟩

/-- Witness for C9 (amended) at a concrete input: interleaved
`START_PLANNING` and `CANCEL` on the queued `job-1` both return `ok`. -/
theorem c9_witness :
    (interleavedTransitions dbQueued "job-1" .START_PLANNING .CANCEL
        none none 3 4).1 = .ok .PLANNING
    ∧ (interleavedTransitions dbQueued "job-1" .START_PLANNING .CANCEL
        none none 3 4).2.1 = .ok .CANCELLED :=
  c9_concurrent_transitions_both_win dbQueued "job-1" jobQueuedRow []
    .START_PLANNING .CANCEL .PLANNING .CANCELLED 3 4 rfl rfl rfl

/-- C1: on the multi-tenant `repositories` table with no active scope,
`select`, `update` and `delete` do fail with `TenantScopeError` before any
SQL — but `insert` does not: its guard
`hasTenantIdColumn(table) && hasTenantContext()` silently skips the
tenant-id wrapping instead of throwing, so the caller's rows (here one
carrying another tenant's id) reach the INSERT statement unchanged and no
error of any kind is raised. -/
theorem c1_insert_without_scope_is_not_guarded :
    tenantInsertValues none repositoriesTable [attackerRow]
      = .ok [attackerRow]
    ∧ tenantSelect none repositoriesTable reposDb
        = .error (.tenantScope
            "Attempted to query multi-tenant table repositories without tenant context")
    ∧ tenantUpdateRun none repositoriesTable reposDb disableRepo selectRepoB
        = .error (.tenantScope
            "Attempted to update multi-tenant table repositories without tenant context")
    ∧ tenantDeleteRun none repositoriesTable reposDb selectRepoB
        = .error (.tenantScope
            "Attempted to delete from multi-tenant table repositories without tenant context") :=
  ⟨rfl, rfl, rfl, rfl⟩

/-- C2: an insert through the tenant-aware client into a multi-tenant table
under the active scope of tenant `c` overwrites `tenantId` to `c.tenantId`
in every inserted row (arrays element-wise), regardless of what the caller
supplied. -/
theorem c2_insert_overwrites_tenant_id (c : TenantContext) (tbl : Table)
    (values : List Row) (htbl : tbl.hasTenantIdColumn = true) :
    tenantInsertValues (some c) tbl values
      = .ok (values.map (fun v => { v with tenantId := some c.tenantId }))
    ∧ ∀ v ∈ values.map (fun v => { v with tenantId := some c.tenantId }),
        v.tenantId = some c.tenantId := by
  constructor
  · simp [tenantInsertValues, htbl]
  · intro v hv
    obtain ⟨x, _, hx⟩ := List.mem_map.mp hv
    rw [← hx]

/-- Witness for C2: inserting a row that claims to belong to tenant B while
tenant A's scope is active persists the row with `tenant_id = tenant-a`. -/
theorem c2_witness :
    tenantInsertValues (some ctxA) repositoriesTable [attackerRow]
      = .ok [{ id := "repo-x", tenantId := some "tenant-a", enabled := true }] :=
  (c2_insert_overwrites_tenant_id ctxA repositoriesTable [attackerRow] rfl).1

/-- C3: for both `update` and `delete` on a multi-tenant table under tenant
`c`'s scope, the executed WHERE predicate is the caller's condition AND-ed
with `tenant_id = c.tenantId` (the tenant predicate alone when the caller
passes no condition to `where` — both operations go through
`createTenantFilterProxy`); consequently an update or delete whose
condition only selects rows of other tenants affects zero rows, does not
fail, and leaves the table — in particular the other tenant's row —
unchanged. -/
theorem c3_update_delete_scoped_to_tenant (c : TenantContext) (tbl : Table)
    (db : List Row) (setFn : Row → Row) (condition : Option (Row → Bool))
    (htbl : tbl.hasTenantIdColumn = true) :
    tenantUpdateRun (some c) tbl db setFn condition
      = .ok (runUpdate db setFn
          (some (fun r => tenantFilterCondition c r
            && (condition.getD (fun _ => true)) r)))
    ∧ tenantDeleteRun (some c) tbl db condition
      = .ok (runDelete db
          (some (fun r => tenantFilterCondition c r
            && (condition.getD (fun _ => true)) r)))
    ∧ ((∀ r ∈ db, (condition.getD (fun _ => true)) r = true →
          ¬ r.tenantId = some c.tenantId) →
        tenantUpdateRun (some c) tbl db setFn condition = .ok (db, [])
        ∧ tenantDeleteRun (some c) tbl db condition = .ok (db, [])) := by
  have heff : proxiedWhere c condition
      = fun r => tenantFilterCondition c r
          && (condition.getD (fun _ => true)) r := by
    cases condition with
    | some cond => rfl
    | none =>
      funext r
      simp [proxiedWhere]
  have hrunU : tenantUpdateRun (some c) tbl db setFn condition
      = .ok (runUpdate db setFn (some (proxiedWhere c condition))) := by
    simp [tenantUpdateRun, htbl]
  have hrunD : tenantDeleteRun (some c) tbl db condition
      = .ok (runDelete db (some (proxiedWhere c condition))) := by
    simp [tenantDeleteRun, htbl]
  refine ⟨by rw [hrunU, heff], by rw [hrunD, heff], ?_⟩
  intro hforeign
  have hfalse : ∀ r ∈ db,
      (tenantFilterCondition c r
        && (condition.getD (fun _ => true)) r) = false := by
    intro r hr
    cases hcond : (condition.getD (fun _ => true)) r with
    | false => simp [hcond]
    | true =>
      have hne := hforeign r hr hcond
      have : tenantFilterCondition c r = false := by
        unfold tenantFilterCondition
        simpa using hne
      simp [this]
  constructor
  · rw [hrunU, heff, runUpdate_no_match db setFn _ hfalse]
  · rw [hrunD, heff, runDelete_no_match db _ hfalse]

/-- Witness for C3 (spec §8 scenario 2): under tenant A's scope, an update
setting `enabled = false` whose condition selects tenant B's repository by
id affects zero rows and leaves the table unchanged (`repoB.enabled` stays
`true`), and a delete with the same condition deletes zero rows. -/
theorem c3_witness :
    tenantUpdateRun (some ctxA) repositoriesTable reposDb disableRepo
        selectRepoB = .ok (reposDb, [])
    ∧ tenantDeleteRun (some ctxA) repositoriesTable reposDb selectRepoB
        = .ok (reposDb, [])
    ∧ repoB.enabled = true :=
  ⟨((c3_update_delete_scoped_to_tenant ctxA repositoriesTable reposDb
      disableRepo selectRepoB rfl).2.2 (by decide)).1,
   ((c3_update_delete_scoped_to_tenant ctxA repositoriesTable reposDb
      disableRepo selectRepoB rfl).2.2 (by decide)).2,
   rfl⟩

/-- C4 counterexample: `createJob` performs no insert into the `jobs`
table — its only effect is the planning-queue `add` — so the claimed
"inserts a Job row with status QUEUED" is false at this (and every)
input. -/
theorem c4_counterexample :
    (createJob "id-1" 0 exampleOptions).dbInserts = [] :=
  rfl

/-- C4 amended: `createJob` generates a fresh id, enqueues the full job
object — `currentState` `QUEUED`, tenant, repository and issue fields, and
the `{issueTitle, issueBody, issueUrl}` queued payload — on the planning
queue with message id equal to the job id, and returns that id; it inserts
no row into the `jobs` table. -/
theorem c4_createJob_enqueues_only (freshId : String) (now : Nat)
    (options : CreateJobOptions) :
    (createJob freshId now options).returnedId = freshId
    ∧ (createJob freshId now options).dbInserts = []
    ∧ (createJob freshId now options).enqueued.map QueueAdd.queue
        = ["planning"]
    ∧ ∀ m ∈ (createJob freshId now options).enqueued,
        m.messageId = freshId
        ∧ m.data.jobId = freshId
        ∧ m.data.currentState = .QUEUED
        ∧ m.data.tenantId = options.tenantId
        ∧ m.data.repositoryId = options.repositoryId
        ∧ m.data.issueNumber = options.issueNumber
        ∧ m.data.payload = { issueTitle := options.issueTitle
                           , issueBody := options.issueBody
                           , issueUrl := options.issueUrl } := by
  refine ⟨rfl, rfl, rfl, ?_⟩
  intro m hm
  simp only [createJob, List.mem_singleton] at hm
  subst hm
  exact ⟨rfl, rfl, rfl, rfl, rfl, rfl, rfl⟩

/-- Witness for C4 (amended) at a concrete input: the single enqueued
message carries the job id as its message id. -/
theorem c4_witness :
    (createJob "id-1" 0 exampleOptions).returnedId = "id-1" :=
  (c4_createJob_enqueues_only "id-1" 0 exampleOptions).1

/-- C7: the attempts counter does **not** increase across successive
rejections.  The coding worker forwards `{plan, code}` to reviewing without
the coding payload's `attempts`, and the reviewing worker reads `attempts`
off the agent's `CodeResult` (where it never exists), so every rejection
re-enqueues `attempts = 1`: after a first rejection the counter is 1, and
after a second successive rejection it is still 1 instead of the claimed
previous + 1 = 2. -/
theorem c7_attempts_stuck_at_one :
    (rejectionRound initialCodingPayload mockCodeResult).attempts = some 1
    ∧ (rejectionRound (rejectionRound initialCodingPayload mockCodeResult)
        mockCodeResult).attempts = some 1 :=
  ⟨rfl, rfl⟩

end AiCd
